import Mathlib

/-!
Verification development for the Sentiment-Analyzer front end.

The definitions below are a shallow embedding of the repository's
JavaScript sources:

* `assets/js/services/marker-engine.service.js` (`MarkerEngineService`)
* `assets/js/components/processing-status.component.js` (`ProcessingStatusComponent`)
* `assets/js/components/annotations-viewer.component.js` (`AnnotationsViewerComponent`)
* the realtime subscription service (`RealtimeAnnotationsService`)
* the orchestrator (`MarkerIntegrationApp`) and upload component (`DocumentUploadComponent`)

Remote Supabase calls are modelled by explicit parameters carrying the
remote outcome (an optional error) together with an explicit database
value; DOM state is modelled as record fields holding the text/visibility
each DOM update writes.  JS `Map` objects are modelled as association
lists with unique keys.  Numbers are `Nat`/`Int`, sentiment scores are `ℚ`.
-/

/-- JS truthiness of an optional string: `undefined`, `null` and `""` are falsy. -/
def jsStrTruthy : Option String → Bool
  | none => false
  | some s => !s.isEmpty

/-- Model of the JS expression `x || y` where `x` is a possibly missing string. -/
def jsOrString (x : Option String) (y : String) : String :=
  match x with
  | none => y
  | some s => if s.isEmpty then y else s

/-- Model of the JS expression `x || 0` for a possibly missing numeric score
(`0` is falsy in JS but `0 || 0 = 0`, so `getD 0` is exact). -/
def jsOrRat (x : Option ℚ) : ℚ := x.getD 0

/-- Model of the JS expression `x || 0` for a possibly missing integer. -/
def jsOrInt (x : Option Int) : Int := x.getD 0

/-- Lookup in a JS `Map` modelled as an association list (`Map.get`). -/
def mapLookup {α β : Type} [BEq α] (m : List (α × β)) (k : α) : Option β :=
  (m.find? (fun e => e.1 == k)).map (fun e => e.2)

/-- Deletion from a JS `Map` (`Map.delete`). -/
def mapDelete {α β : Type} [BEq α] (m : List (α × β)) (k : α) : List (α × β) :=
  m.filter (fun e => !(e.1 == k))

/-- Insertion into a JS `Map` (`Map.set`): replaces any previous binding of the key. -/
def mapSet {α β : Type} [BEq α] (m : List (α × β)) (k : α) (v : β) : List (α × β) :=
  mapDelete m k ++ [(k, v)]

/-- Membership test of a JS `Map` (`Map.has`). -/
def mapHas {α β : Type} [BEq α] (m : List (α × β)) (k : α) : Bool :=
  (mapLookup m k).isSome

/-- Number of entries a key has in the association list (a JS `Map` has at most one). -/
def mapCountKey {α β : Type} [BEq α] (m : List (α × β)) (k : α) : Nat :=
  m.countP (fun e => e.1 == k)

/-- A row of the `marker_jobs` table, schema as in MARKER_INTEGRATION_SETUP.md. -/
structure JobRow where
  id : Nat
  file_path : String
  file_name : String
  file_size : Nat
  file_type : String
  status : String
  progress : Int
  extracted_text : Option String
  markdown_output : Option String
  error_message : Option String
  options : List (String × Bool)
deriving DecidableEq

/-- A row of the `text_annotations` table, schema as in MARKER_INTEGRATION_SETUP.md. -/
structure AnnotationRow where
  id : Nat
  job_id : Nat
  text : String
  position : Int
  sentiment_score : Option ℚ
  emotion : Option String
deriving DecidableEq

/-- A remote-call failure surfaced by the Supabase client. -/
inductive RemoteError
  | storage (msg : String)
  | db (msg : String)
deriving DecidableEq

/-- Entry of `MarkerEngineService.processingQueue`. -/
structure QueueEntry where
  status : String
  progress : Int
  startTime : Nat
deriving DecidableEq

/-- Local state of `MarkerEngineService`: `this.processingQueue` and
`this.annotationCache`, both JS `Map`s keyed by job id. -/
structure MarkerServiceState where
  processingQueue : List (Nat × QueueEntry)
  annotationCache : List (Nat × List AnnotationRow)
deriving DecidableEq

/-- The remote Supabase state the service talks to: the storage bucket paths,
the `marker_jobs` rows and the id the database will assign to the next insert. -/
structure MarkerDB where
  storedPaths : List String
  jobs : List JobRow
  nextJobId : Nat
deriving DecidableEq

/-- Splitting a character list at every occurrence of a separator character,
keeping empty segments, as JS `String.prototype.split` does with a
single-character separator. -/
def splitCharsOn (c : Char) (l : List Char) : List (List Char) :=
  l.foldr (fun ch acc =>
    match acc with
    | [] => [[ch]]
    | cur :: rest => if ch = c then [] :: cur :: rest else (ch :: cur) :: rest) [[]]

/-- Model of `file.name.split(\x27.\x27).pop()`: the last dot-separated segment
of the name (the whole name when it has no dot, `""` for the empty name). -/
def fileExtOf (name : String) : String :=
  String.mk ((splitCharsOn '.' name.data).getLastD [])

/-- ASCII lower-casing of one character; model of JS `toLowerCase` on the
ASCII-only strings (file extensions, emotion labels) this front end feeds it. -/
def lowerChar (ch : Char) : Char :=
  if 65 ≤ ch.toNat ∧ ch.toNat ≤ 90 then Char.ofNat (ch.toNat + 32) else ch

/-- Model of JS `String.prototype.toLowerCase` (ASCII). -/
def lowerString (s : String) : String :=
  String.mk (s.data.map lowerChar)

/-- `DocumentUploadComponent.validateFile`: extension must be in the allow-list
(lower-cased), and the size must not exceed `maxFileSize`. -/
def validateFile (allowedTypes : List String) (maxFileSize : Nat)
    (name : String) (size : Nat) : Bool :=
  let fileExt := lowerString (fileExtOf name)
  if !(allowedTypes.contains fileExt) then false
  else if size > maxFileSize then false
  else true

/-- Default allow-list the orchestrator passes to `DocumentUploadComponent`. -/
def defaultAllowedTypes : List String := ["pdf", "docx", "doc", "txt", "md", "html"]

/-- Default size ceiling the orchestrator passes (50 MiB). -/
def defaultMaxFileSize : Nat := 50 * 1024 * 1024

/-- Row insert into `marker_jobs`.  The service's insert supplies
`file_path`, `file_name`, `file_size`, `file_type`, `status`, `options` and
`created_at`; every omitted column takes its schema default from
MARKER_INTEGRATION_SETUP.md — in particular `progress INTEGER DEFAULT 0` —
and `id` is database-assigned. -/
def dbInsertJob (db : MarkerDB) (file_path file_name : String) (file_size : Nat)
    (file_type status : String) (options : List (String × Bool)) : MarkerDB × JobRow :=
  let row : JobRow :=
    { id := db.nextJobId
      file_path := file_path
      file_name := file_name
      file_size := file_size
      file_type := file_type
      status := status
      progress := 0
      extracted_text := none
      markdown_output := none
      error_message := none
      options := options }
  ({ db with jobs := db.jobs ++ [row], nextJobId := db.nextJobId + 1 }, row)

/-- `MarkerEngineService.uploadAndProcess`: upload the file bytes to storage
under a timestamp-prefixed path, then insert one `marker_jobs` row with
`status: \x27pending\x27`, then record the job in the local processing queue.
`now` models `Date.now()`; `uploadError` and `insertError` model the outcome of
the two remote calls.  A failed upload leaves both the database and the local
state untouched; a failed insert leaves the stored blob in place (no rollback). -/
def uploadAndProcess (st : MarkerServiceState) (db : MarkerDB)
    (fileName : String) (fileSize : Nat) (options : List (String × Bool)) (now : Nat)
    (uploadError insertError : Option RemoteError) :
    MarkerServiceState × MarkerDB × Except RemoteError JobRow :=
  let fileExt := fileExtOf fileName
  let filePath := "documents/" ++ toString now ++ "_" ++ fileName
  match uploadError with
  | some e => (st, db, Except.error e)
  | none =>
    let db1 : MarkerDB := { db with storedPaths := db.storedPaths ++ [filePath] }
    match insertError with
    | some e => (st, db1, Except.error e)
    | none =>
      let inserted := dbInsertJob db1 filePath fileName fileSize fileExt "pending" options
      let jobData := inserted.2
      let entry : QueueEntry := { status := "pending", progress := 0, startTime := now }
      ({ st with processingQueue := mapSet st.processingQueue jobData.id entry },
       inserted.1, Except.ok jobData)

/-- Model of `.eq(\x27id\x27, jobId).single()`: succeeds iff exactly one row matches. -/
def singleJobRow (jobs : List JobRow) (jobId : Nat) : Option JobRow :=
  match jobs.filter (fun j => j.id == jobId) with
  | [r] => some r
  | _ => none

/-- `MarkerEngineService.getExtractedText`: select the job row and return
`data.extracted_text || data.markdown_output || \x27\x27`. -/
def getExtractedText (jobs : List JobRow) (jobId : Nat) : Except RemoteError String :=
  match singleJobRow jobs jobId with
  | none => Except.error (RemoteError.db "single row expected")
  | some row => Except.ok (jsOrString row.extracted_text (jsOrString row.markdown_output ""))

/-- Ordering of annotation rows by their `position` column. -/
def posLe (a b : AnnotationRow) : Prop := a.position ≤ b.position

/-- Strict version of `posLe`, used to compare sorted lists with distinct positions. -/
def posLt (a b : AnnotationRow) : Prop := a.position < b.position

instance : DecidableRel posLe := fun a b => inferInstanceAs (Decidable (a.position ≤ b.position))

instance : IsTotal AnnotationRow posLe := ⟨fun a b => Int.le_total a.position b.position⟩

instance : IsTrans AnnotationRow posLe := ⟨fun _ _ _ hab hbc => le_trans hab hbc⟩

instance : IsAntisymm AnnotationRow posLt :=
  ⟨fun _ _ h1 h2 => absurd (lt_trans h1 h2) (lt_irrefl _)⟩

/-- Stable ascending sort by `position`.  This models both the server-side
`.order(\x27position\x27, ascending)` clause and the client-side
`[...].sort((a, b) => a.position - b.position)` (ES2019 `Array.prototype.sort`
is a stable sort; the comparator orders by `position` ascending). -/
def sortByPosition (l : List AnnotationRow) : List AnnotationRow :=
  List.insertionSort posLe l

/-- The remote annotation query issued by `MarkerEngineService.getAnnotations`:
all `text_annotations` rows of the job, ordered by `position` ascending. -/
def queryAnnotations (rows : List AnnotationRow) (jobId : Nat) : List AnnotationRow :=
  sortByPosition (rows.filter (fun a => a.job_id == jobId))

/-- `MarkerEngineService.getAnnotations`: return the cache entry if present,
otherwise run the remote query, cache its result and return it.
`queryError` models the outcome of the remote call (unused on a cache hit,
because no remote call is made). -/
def getAnnotations (st : MarkerServiceState) (rows : List AnnotationRow) (jobId : Nat)
    (queryError : Option RemoteError) :
    MarkerServiceState × Except RemoteError (List AnnotationRow) :=
  match mapLookup st.annotationCache jobId with
  | some cached => (st, Except.ok cached)
  | none =>
    match queryError with
    | some e => (st, Except.error e)
    | none =>
      let data := queryAnnotations rows jobId
      ({ st with annotationCache := mapSet st.annotationCache jobId data }, Except.ok data)

/-- The remote `update(\x7b status: \x27cancelled\x27 \x7d).eq(\x27id\x27, jobId)` issued by `cancelJob`. -/
def dbCancelJob (db : MarkerDB) (jobId : Nat) : MarkerDB :=
  { db with jobs :=
      db.jobs.map (fun j => if j.id == jobId then { j with status := "cancelled" } else j) }

/-- `MarkerEngineService.cancelJob`: update the remote row to `cancelled`;
if the remote update fails the error is rethrown before
`this.processingQueue.delete(jobId)` runs, so the local queue is untouched;
on success the local entry is deleted and `true` is returned. -/
def cancelJob (st : MarkerServiceState) (db : MarkerDB) (jobId : Nat)
    (updateError : Option RemoteError) :
    MarkerServiceState × MarkerDB × Except RemoteError Bool :=
  match updateError with
  | some e => (st, db, Except.error e)
  | none =>
    ({ st with processingQueue := mapDelete st.processingQueue jobId },
     dbCancelJob db jobId, Except.ok true)

/-- The highlight modes of `AnnotationsViewerComponent`
(`\x27sentiment\x27 | \x27emotion\x27 | \x27none\x27`; `noHighlight` stands for `\x27none\x27`). -/
inductive HighlightMode
  | sentiment
  | emotion
  | noHighlight
deriving DecidableEq

/-- `AnnotationsViewerComponent.getHighlightClass`: in sentiment mode the class
is derived from `annotation.sentiment_score || 0`, in emotion mode from
`annotation.emotion || \x27neutral\x27` lower-cased, otherwise it is empty. -/
def getHighlightClass (mode : HighlightMode) (a : AnnotationRow) : String :=
  match mode with
  | HighlightMode.sentiment =>
    let score := jsOrRat a.sentiment_score
    if score > mkRat 3 10 then "sentiment-positive"
    else if score < -(mkRat 3 10) then "sentiment-negative"
    else "sentiment-neutral"
  | HighlightMode.emotion => "emotion-" ++ lowerString (jsOrString a.emotion "neutral")
  | HighlightMode.noHighlight => ""

/-- The `<span>` markup `renderAnnotations` emits for one sorted annotation:
`idx` is the index in the sorted array, used both for `data-index` and for the
`onclick` handler argument. -/
def renderFragment (mode : HighlightMode) (idx : Nat) (a : AnnotationRow) : String :=
  "<span class=\"annotated-text " ++ getHighlightClass mode a
    ++ "\" data-annotation-id=\"" ++ toString a.id
    ++ "\" data-index=\"" ++ toString idx
    ++ "\" onclick=\"annotationsViewer.selectAnnotation(" ++ toString idx
    ++ ")\">" ++ a.text ++ "</span> "

/-- The empty-state markup `renderAnnotations` writes when the list is empty. -/
def emptyStateHtml : String :=
  "<div class=\"empty-state\"><i class=\"material-icons\">description</i><p>Keine Annotations verfügbar</p><small>Laden Sie ein Dokument hoch, um zu beginnen</small></div>"

/-- `AnnotationsViewerComponent.renderAnnotations`: empty-state markup for an
empty list, otherwise the concatenation of one fragment per annotation, in the
order of the stable position sort. -/
def renderAnnotations (mode : HighlightMode) (anns : List AnnotationRow) : String :=
  if anns.isEmpty then emptyStateHtml
  else String.join (((sortByPosition anns).enum).map (fun p => renderFragment mode p.1 p.2))

/-- The detail panel `showAnnotationDetails` populates: text, score with a
proportional bar colored by sign, emotion, position and character length. -/
structure DetailPanel where
  text : String
  sentimentScore : ℚ
  barWidth : ℚ
  barColor : String
  emotionText : String
  positionShown : Int
  lengthShown : Nat
deriving DecidableEq

/-- `AnnotationsViewerComponent.showAnnotationDetails` as a pure function of the
annotation it is handed. -/
def showAnnotationDetails (ann : AnnotationRow) : DetailPanel :=
  let sentimentScore := jsOrRat ann.sentiment_score
  { text := ann.text
    sentimentScore := sentimentScore
    barWidth := (if sentimentScore < 0 then -sentimentScore else sentimentScore) * 100
    barColor :=
      if sentimentScore > 0 then "#48bb78"
      else if sentimentScore < 0 then "#f56565"
      else "#a0aec0"
    emotionText := jsOrString ann.emotion "N/A"
    positionShown := ann.position
    lengthShown := ann.text.length }

/-- Local state of `AnnotationsViewerComponent`: the in-memory annotation list
(`this.annotations`, in stream-arrival order) and the selected annotation. -/
structure ViewerState where
  annotations : List AnnotationRow
  selectedAnn : Option AnnotationRow
deriving DecidableEq

/-- Everything `selectAnnotation(index)` does: the updated component state, the
DOM index that gets the `selected` class (exclusively), and the detail panel
contents.  `index` is the index of the clicked fragment in the rendered
(sorted) DOM, but the code reads `this.annotations[index]` — the unsorted
in-memory list. -/
structure SelectionResult where
  state : ViewerState
  selectedDomIndex : Nat
  panel : Option DetailPanel
deriving DecidableEq

/-- `AnnotationsViewerComponent.selectAnnotation`, faithful to the source: the
annotation is taken from the unsorted `this.annotations` at `index`, while the
`selected` class is toggled on the DOM fragment at `index` (sorted order).
An out-of-range index yields `undefined` (modelled as no panel). -/
def selectAnnotationAt (st : ViewerState) (index : Nat) : SelectionResult :=
  match st.annotations.get? index with
  | none => { state := { st with selectedAnn := none }, selectedDomIndex := index, panel := none }
  | some ann =>
    { state := { st with selectedAnn := some ann }
      selectedDomIndex := index
      panel := some (showAnnotationDetails ann) }

/-- The annotation that the fragment rendered at DOM index `idx` was built
from (the sorted order used by `renderAnnotations`). -/
def renderedAnnAt (st : ViewerState) (idx : Nat) : Option AnnotationRow :=
  (sortByPosition st.annotations).get? idx

/-- Local state of `RealtimeAnnotationsService`: `this.subscriptions` and
`this.eventHandlers`, JS `Map`s keyed by the job id (or the sentinel
`annotations-global` key), plus the connection flag.  Channel objects and
handler records are modelled by numeric handles. -/
structure RealtimeState where
  subscriptions : List (String × Nat)
  eventHandlers : List (String × Nat)
  nextChannel : Nat
  isConnected : Bool
deriving DecidableEq

/-- The remote channel operations a subscribe/unsubscribe performs, in order. -/
inductive ChannelOp
  | removeChannel (handle : Nat)
  | openChannel (name : String) (handle : Nat)
deriving DecidableEq

/-- `RealtimeAnnotationsService.unsubscribeFromJob`: if a channel is registered
for the job id, remove it remotely and delete both map entries; otherwise a
no-op. -/
def unsubscribeFromJob (st : RealtimeState) (jobId : String) :
    RealtimeState × List ChannelOp :=
  match mapLookup st.subscriptions jobId with
  | some channel =>
    ({ st with subscriptions := mapDelete st.subscriptions jobId,
               eventHandlers := mapDelete st.eventHandlers jobId },
     [ChannelOp.removeChannel channel])
  | none => (st, [])

/-- `RealtimeAnnotationsService.isSubscribedToJob`. -/
def isSubscribedToJob (st : RealtimeState) (jobId : String) : Bool :=
  mapHas st.subscriptions jobId

/-- `RealtimeAnnotationsService.subscribeToJob`: tear down any prior
subscription for the id, then open the channel `job-<id>` and record it and
the handler set (`handlersId`) in the two maps. -/
def subscribeToJob (st : RealtimeState) (jobId : String) (handlersId : Nat) :
    RealtimeState × List ChannelOp :=
  let torn := if mapHas st.subscriptions jobId then unsubscribeFromJob st jobId else (st, [])
  let st1 := torn.1
  let channel := st1.nextChannel
  ({ st1 with subscriptions := mapSet st1.subscriptions jobId channel,
              eventHandlers := mapSet st1.eventHandlers jobId handlersId,
              nextChannel := channel + 1 },
   torn.2 ++ [ChannelOp.openChannel ("job-" ++ jobId) channel])

/-- The handler record passed to `subscribeToJob`; each flag models whether the
corresponding callback is present in the JS handlers object. -/
structure JobHandlers where
  onStatusChange : Bool
  onProgressUpdate : Bool
  onJobUpdate : Bool
deriving DecidableEq

/-- A raw `postgres_changes` payload for the `marker_jobs` table.
`oldData` is absent for insert events (`payload.old` is undefined there). -/
structure JobUpdatePayload where
  newData : JobRow
  oldData : Option JobRow
  eventType : String
deriving DecidableEq

/-- The typed callback invocations `handleJobUpdate` can emit, with the data
each invocation carries. -/
inductive JobEvent
  | statusChange (jobId : Nat) (oldStatus : Option String) (newStatus : String)
  | progressUpdate (jobId : Nat) (progress : Int)
  | jobUpdate (jobId : Nat) (eventType : String)
deriving DecidableEq

/-- `RealtimeAnnotationsService.handleJobUpdate`: the demultiplexer for raw
job-row change events.  It fires `onStatusChange` iff the status differs from
the previous one (`newData.status !== oldData?.status`) and the handler is
registered, then `onProgressUpdate` iff the progress differs and the handler
is registered, then `onJobUpdate` whenever that handler is registered. -/
def handleJobUpdate (jobId : Nat) (payload : JobUpdatePayload) (handlers : JobHandlers) :
    List JobEvent :=
  (if payload.oldData.map JobRow.status ≠ some payload.newData.status
      ∧ handlers.onStatusChange = true then
    [JobEvent.statusChange jobId (payload.oldData.map JobRow.status) payload.newData.status]
   else []) ++
  (if payload.oldData.map JobRow.progress ≠ some payload.newData.progress
      ∧ handlers.onProgressUpdate = true then
    [JobEvent.progressUpdate jobId payload.newData.progress]
   else []) ++
  (if handlers.onJobUpdate = true then [JobEvent.jobUpdate jobId payload.eventType] else [])

/-- The callback options of `ProcessingStatusComponent` (each flag models
whether the callback was supplied; `autoClose` only schedules an asynchronous
`hide()` and is irrelevant to the synchronous update). -/
structure StatusOptions where
  onStatusChange : Bool
  onComplete : Bool
  onError : Bool
deriving DecidableEq

/-- The data object handed to `ProcessingStatusComponent.updateStatus`
(a job row as delivered by the change feed or by `startTracking`). -/
structure StatusData where
  id : Option Nat
  file_name : Option String
  status : String
  progress : Option Int
  error_message : Option String
deriving DecidableEq

/-- The callback invocations `updateStatus` can perform. -/
inductive StatusEvent
  | completeFired (d : StatusData)
  | errorFired (d : StatusData)
  | statusChangeFired (d : StatusData)
deriving DecidableEq

/-- The DOM state `updateStatus` writes: texts, icon, wrapper class, progress
bar, cancel-button visibility, and whether the elapsed-time interval timer is
running. -/
structure StatusViewState where
  statusTitle : String
  statusDescription : String
  statusIcon : String
  wrapperClass : String
  jobIdText : String
  fileNameText : String
  jobStatusText : String
  progressWidth : Int
  progressText : String
  cancelVisible : Bool
  timerRunning : Bool
deriving DecidableEq

/-- The DOM writes of `ProcessingStatusComponent.updateStatus`: job details and
the progress bar are written unconditionally, then the `switch` on
`data.status` updates header, icon and wrapper class, and in the terminal
branches (completed, failed/error, cancelled) hides the cancel button and
stops the timer. -/
def updateStatusView (st : StatusViewState) (d : StatusData) : StatusViewState :=
  let progress := jsOrInt d.progress
  let st1 : StatusViewState :=
    { st with
      jobIdText := match d.id with | some i => toString i | none => "-"
      fileNameText := jsOrString d.file_name "-"
      jobStatusText := if d.status.isEmpty then "unknown" else d.status
      progressWidth := progress
      progressText := toString progress ++ "%" }
  if d.status = "pending" then
    { st1 with statusTitle := "Warte in der Warteschlange..."
               statusDescription := "Ihr Dokument wird gleich verarbeitet"
               statusIcon := "hourglass_empty"
               wrapperClass := "processing-status-wrapper" }
  else if d.status = "processing" then
    { st1 with statusTitle := "Dokument wird verarbeitet..."
               statusDescription := "Marker extrahiert Text und erstellt Annotations"
               statusIcon := "auto_fix_high"
               wrapperClass := "processing-status-wrapper" }
  else if d.status = "completed" then
    { st1 with statusTitle := "Verarbeitung abgeschlossen!"
               statusDescription := "Text wurde erfolgreich extrahiert"
               statusIcon := "check_circle"
               wrapperClass := "processing-status-wrapper status-success"
               cancelVisible := false
               timerRunning := false }
  else if d.status = "failed" ∨ d.status = "error" then
    { st1 with statusTitle := "Verarbeitung fehlgeschlagen"
               statusDescription := jsOrString d.error_message "Ein Fehler ist aufgetreten"
               statusIcon := "error"
               wrapperClass := "processing-status-wrapper status-error"
               cancelVisible := false
               timerRunning := false }
  else if d.status = "cancelled" then
    { st1 with statusTitle := "Verarbeitung abgebrochen"
               statusDescription := "Der Vorgang wurde vom Benutzer abgebrochen"
               statusIcon := "cancel"
               wrapperClass := "processing-status-wrapper status-error"
               cancelVisible := false
               timerRunning := false }
  else
    st1

/-- The callback firings inside the `switch` of `updateStatus`, branch by
branch in source order: `onComplete` in the `completed` branch, `onError` in
the `failed`/`error` branch, none elsewhere.  Note there is no guard against
firing `onComplete` again on a later call that still carries `completed`. -/
def statusSwitchEvents (opts : StatusOptions) (d : StatusData) : List StatusEvent :=
  if d.status = "pending" then []
  else if d.status = "processing" then []
  else if d.status = "completed" then
    (if opts.onComplete then [StatusEvent.completeFired d] else [])
  else if d.status = "failed" ∨ d.status = "error" then
    (if opts.onError then [StatusEvent.errorFired d] else [])
  else if d.status = "cancelled" then []
  else []

/-- `ProcessingStatusComponent.updateStatus`: the DOM writes, the switch-branch
callback (if any), and finally the unconditional `onStatusChange` callback when
registered. -/
def updateStatus (opts : StatusOptions) (st : StatusViewState) (d : StatusData) :
    StatusViewState × List StatusEvent :=
  (updateStatusView st d,
   statusSwitchEvents opts d
     ++ (if opts.onStatusChange then [StatusEvent.statusChangeFired d] else []))

/-- Deliver a sequence of status updates to the component, collecting every
callback invocation in order. -/
def runUpdates (opts : StatusOptions) : StatusViewState → List StatusData →
    StatusViewState × List StatusEvent
  | st, [] => (st, [])
  | st, d :: ds =>
    let r1 := updateStatus opts st d
    let r2 := runUpdates opts r1.1 ds
    (r2.1, r1.2 ++ r2.2)

/-- Recognizer for completion-callback invocations. -/
def isCompleteEvent : StatusEvent → Bool
  | StatusEvent.completeFired _ => true
  | _ => false

/-- Status options with a completion callback registered, as the orchestrator
installs them (`onStatusChange`, `onComplete`, `onError` all supplied). -/
def demoStatusOpts : StatusOptions :=
  { onStatusChange := true, onComplete := true, onError := true }

/-- The DOM state right after `render()`, before any update. -/
def initialStatusView : StatusViewState :=
  { statusTitle := "Dokument wird verarbeitet..."
    statusDescription := "Bitte warten Sie, während Marker den Text extrahiert"
    statusIcon := "hourglass_empty"
    wrapperClass := "processing-status-wrapper"
    jobIdText := "-"
    fileNameText := "-"
    jobStatusText := "pending"
    progressWidth := 0
    progressText := "0%"
    cancelVisible := false
    timerRunning := true }

/-- A first completed update (the change-feed event that completes the job). -/
def completedData50 : StatusData :=
  { id := some 7, file_name := some "report.pdf", status := "completed",
    progress := some 50, error_message := none }

/-- A later progress-only update of the already-completed job (status still
`completed`, only the progress differs). -/
def completedData100 : StatusData :=
  { id := some 7, file_name := some "report.pdf", status := "completed",
    progress := some 100, error_message := none }

/-- Two annotations sharing position 1 but with different texts and ids. -/
def tieA : AnnotationRow :=
  { id := 1, job_id := 1, text := "x", position := 1, sentiment_score := none, emotion := none }

/-- Second annotation of the position tie. -/
def tieB : AnnotationRow :=
  { id := 2, job_id := 1, text := "y", position := 1, sentiment_score := none, emotion := none }

/-- Annotation arriving first over the change feed, with the larger position. -/
def demoBeta : AnnotationRow :=
  { id := 11, job_id := 7, text := "beta", position := 5,
    sentiment_score := some (mkRat 1 2), emotion := some "joy" }

/-- Annotation arriving second, with the smaller position. -/
def demoAlpha : AnnotationRow :=
  { id := 12, job_id := 7, text := "alpha", position := 2,
    sentiment_score := some (-(mkRat 1 2)), emotion := some "sadness" }

/-- Viewer state after the two real-time arrivals `[demoBeta, demoAlpha]`
(stream-arrival order; not sorted by position). -/
def demoViewer : ViewerState :=
  { annotations := [demoBeta, demoAlpha], selectedAnn := none }

/-- The job row before a change-feed update (processing, progress 50). -/
def c2OldRow : JobRow :=
  { id := 7, file_path := "documents/1000_report.pdf", file_name := "report.pdf",
    file_size := 5000000, file_type := "pdf", status := "processing", progress := 50,
    extracted_text := none, markdown_output := none, error_message := none, options := [] }

/-- The job row after the update (completed, progress 100). -/
def c2NewRow : JobRow :=
  { c2OldRow with status := "completed", progress := 100,
                  extracted_text := some "Lorem ipsum" }

/-- Empty local service state. -/
def c3ServiceState : MarkerServiceState := { processingQueue := [], annotationCache := [] }

/-- Empty remote state before the upload. -/
def c3Db : MarkerDB := { storedPaths := [], jobs := [], nextJobId := 0 }

/-- The job row `uploadAndProcess` creates for `report.pdf` at time 1000. -/
def c3Job : JobRow :=
  { id := 0, file_path := "documents/1000_report.pdf", file_name := "report.pdf",
    file_size := 5000000, file_type := "pdf", status := "pending", progress := 0,
    extracted_text := none, markdown_output := none, error_message := none, options := [] }

/-- The local service state after the successful upload of `report.pdf`. -/
def c3StateAfter : MarkerServiceState :=
  { processingQueue := [(0, { status := "pending", progress := 0, startTime := 1000 })],
    annotationCache := [] }

/-- The remote state after the successful upload of `report.pdf`. -/
def c3DbAfter : MarkerDB :=
  { storedPaths := ["documents/1000_report.pdf"], jobs := [c3Job], nextJobId := 1 }

theorem mapLookup_cons {α β : Type} [BEq α] (e : α × β) (t : List (α × β)) (k : α) :
    mapLookup (e :: t) k = if e.1 == k then some e.2 else mapLookup t k := by
  unfold mapLookup
  rcases h : e.1 == k with _ | _ <;> simp [List.find?_cons, h]

theorem mapDelete_cons {α β : Type} [BEq α] (e : α × β) (t : List (α × β)) (k : α) :
    mapDelete (e :: t) k = if e.1 == k then mapDelete t k else e :: mapDelete t k := by
  unfold mapDelete
  rcases h : e.1 == k with _ | _ <;> simp [List.filter_cons, h]

theorem mapLookup_mapDelete_self {α β : Type} [BEq α] (m : List (α × β)) (k : α) :
    mapLookup (mapDelete m k) k = none := by
  induction m with
  | nil => rfl
  | cons e t ih =>
    rw [mapDelete_cons]
    by_cases h : (e.1 == k) = true
    · rw [if_pos h]
      exact ih
    · rw [if_neg h, mapLookup_cons, if_neg h]
      exact ih

theorem mapLookup_mapSet_self {α β : Type} [BEq α] [LawfulBEq α]
    (m : List (α × β)) (k : α) (v : β) :
    mapLookup (mapSet m k v) k = some v := by
  have hnone : mapLookup (mapDelete m k) k = none := mapLookup_mapDelete_self m k
  unfold mapLookup at hnone ⊢
  unfold mapSet
  rw [List.find?_append]
  have hfind : List.find? (fun e => e.1 == k) (mapDelete m k) = none := by
    rcases hf : List.find? (fun e => e.1 == k) (mapDelete m k) with _ | e
    · exact hf
    · rw [hf] at hnone
      simp at hnone
  rw [hfind]
  simp

theorem mapLookup_mapDelete_ne {α β : Type} [BEq α] [LawfulBEq α]
    (m : List (α × β)) (k k' : α) (h : k' ≠ k) :
    mapLookup (mapDelete m k) k' = mapLookup m k' := by
  induction m with
  | nil => rfl
  | cons e t ih =>
    rw [mapDelete_cons]
    by_cases hk : (e.1 == k) = true
    · have hk' : (e.1 == k') = false := by
        rcases hbeq : e.1 == k' with _ | _
        · rfl
        · exact absurd ((eq_of_beq hbeq).symm.trans (eq_of_beq hk)) h
      rw [if_pos hk, ih, mapLookup_cons, if_neg (by simp [hk'])]
    · rw [if_neg hk, mapLookup_cons, mapLookup_cons, ih]

theorem mapCountKey_mapDelete_self {α β : Type} [BEq α] (m : List (α × β)) (k : α) :
    mapCountKey (mapDelete m k) k = 0 := by
  unfold mapCountKey mapDelete
  rw [List.countP_eq_zero]
  intro e he
  have := (List.mem_filter.mp he).2
  simp only [Bool.not_eq_true'] at this
  simp [this]

theorem mapCountKey_mapSet_self {α β : Type} [BEq α] [LawfulBEq α]
    (m : List (α × β)) (k : α) (v : β) :
    mapCountKey (mapSet m k v) k = 1 := by
  unfold mapSet
  have h0 : mapCountKey (mapDelete m k) k = 0 := mapCountKey_mapDelete_self m k
  unfold mapCountKey at h0 ⊢
  rw [List.countP_append, h0]
  simp [List.countP_cons]

theorem sortByPosition_perm (l : List AnnotationRow) : (sortByPosition l).Perm l :=
  List.perm_insertionSort posLe l

theorem sortByPosition_sorted (l : List AnnotationRow) :
    List.Sorted posLe (sortByPosition l) :=
  List.sorted_insertionSort posLe l

theorem sortByPosition_filter_pos (l : List AnnotationRow) (k : Int) :
    (sortByPosition l).filter (fun a => a.position == k)
      = l.filter (fun a => a.position == k) := by
  have hpw : (l.filter (fun a => a.position == k)).Pairwise posLe := by
    refine List.pairwise_of_forall_mem_list ?_
    intro a ha b hb
    have ha2 : a.position = k := by
      have := (List.mem_filter.mp ha).2
      exact eq_of_beq this
    have hb2 : b.position = k := by
      have := (List.mem_filter.mp hb).2
      exact eq_of_beq this
    show a.position ≤ b.position
    rw [ha2, hb2]
  have hsub : (l.filter (fun a => a.position == k)).Sublist (sortByPosition l) :=
    List.sublist_insertionSort hpw (List.filter_sublist l)
  have hsub2 := hsub.filter (fun a => a.position == k)
  rw [List.filter_eq_self.mpr (fun a ha => (List.mem_filter.mp ha).2)] at hsub2
  have hperm : ((sortByPosition l).filter (fun a => a.position == k)).Perm
      (l.filter (fun a => a.position == k)) :=
    (sortByPosition_perm l).filter (fun a => a.position == k)
  exact (hsub2.eq_of_length hperm.length_eq.symm).symm

theorem sorted_posLt_of_nodup_positions {l : List AnnotationRow}
    (hs : List.Sorted posLe l) (hnd : (l.map AnnotationRow.position).Nodup) :
    List.Sorted posLt l := by
  have hne : l.Pairwise (fun a b => a.position ≠ b.position) := List.pairwise_map.mp hnd
  exact (List.Pairwise.and hs hne).imp (fun h => lt_of_le_of_ne h.1 h.2)

theorem sortByPosition_eq_of_perm {l₁ l₂ : List AnnotationRow} (hperm : l₁.Perm l₂)
    (hnd : (l₁.map AnnotationRow.position).Nodup) :
    sortByPosition l₁ = sortByPosition l₂ := by
  have hp₁ : (sortByPosition l₁).Perm l₁ := sortByPosition_perm l₁
  have hp₂ : (sortByPosition l₂).Perm l₂ := sortByPosition_perm l₂
  have hchain : (sortByPosition l₁).Perm (sortByPosition l₂) :=
    hp₁.trans (hperm.trans hp₂.symm)
  have hnd₁ : ((sortByPosition l₁).map AnnotationRow.position).Nodup :=
    ((hp₁.map AnnotationRow.position).nodup_iff).mpr hnd
  have hnd₂ : ((sortByPosition l₂).map AnnotationRow.position).Nodup :=
    ((hchain.map AnnotationRow.position).nodup_iff).mp hnd₁
  exact List.eq_of_perm_of_sorted hchain
    (sorted_posLt_of_nodup_positions (sortByPosition_sorted l₁) hnd₁)
    (sorted_posLt_of_nodup_positions (sortByPosition_sorted l₂) hnd₂)

theorem statusSwitchEvents_completeCount (opts : StatusOptions) (d : StatusData) :
    ((statusSwitchEvents opts d).countP isCompleteEvent) =
      if d.status = "completed" ∧ opts.onComplete = true then 1 else 0 := by
  unfold statusSwitchEvents
  split_ifs <;> simp_all [isCompleteEvent, List.countP_cons]

theorem updateStatus_completeCount (opts : StatusOptions) (st : StatusViewState)
    (d : StatusData) :
    ((updateStatus opts st d).2.countP isCompleteEvent) =
      if d.status = "completed" ∧ opts.onComplete = true then 1 else 0 := by
  unfold updateStatus
  rw [List.countP_append, statusSwitchEvents_completeCount]
  by_cases hs : opts.onStatusChange = true <;> simp [hs, isCompleteEvent]

theorem runUpdates_completeCount (opts : StatusOptions) (h : opts.onComplete = true)
    (st : StatusViewState) (ds : List StatusData) :
    ((runUpdates opts st ds).2.countP isCompleteEvent) =
      ds.countP (fun d => d.status == "completed") := by
  induction ds generalizing st with
  | nil => rfl
  | cons d ds ih =>
    simp only [runUpdates, List.countP_append, List.countP_cons]
    rw [updateStatus_completeCount, ih]
    by_cases hd : d.status = "completed"
    · simp [hd, h]
      omega
    · simp [hd, h]

theorem mkRat_three_ten : (mkRat 3 10 : ℚ) = 3/10 := by
  norm_num [Rat.mkRat_eq_div]

/-- C4: the sentiment-bucket mapping of `getHighlightClass` is a pure function
of the (defaulted) score: a score strictly greater than 3/10 maps to the
positive bucket, strictly less than −3/10 to the negative bucket, and any
other score — including exactly 3/10, exactly −3/10 and 0 — to neutral. -/
theorem c4_sentiment_bucket_pure (a b : AnnotationRow) (s : ℚ)
    (ha : jsOrRat a.sentiment_score = s) :
    (jsOrRat b.sentiment_score = s →
      getHighlightClass HighlightMode.sentiment b
        = getHighlightClass HighlightMode.sentiment a) ∧
    (s > 3/10 → getHighlightClass HighlightMode.sentiment a = "sentiment-positive") ∧
    (s < -(3/10) → getHighlightClass HighlightMode.sentiment a = "sentiment-negative") ∧
    (-(3/10) ≤ s → s ≤ 3/10 →
      getHighlightClass HighlightMode.sentiment a = "sentiment-neutral") := by
  refine ⟨?_, ?_, ?_, ?_⟩
  · intro hb
    simp only [getHighlightClass]
    rw [hb, ha]
  · intro h
    simp only [getHighlightClass, mkRat_three_ten]
    rw [ha, if_pos h]
  · intro h
    simp only [getHighlightClass, mkRat_three_ten]
    rw [ha, if_neg (by linarith), if_pos h]
  · intro h1 h2
    simp only [getHighlightClass, mkRat_three_ten]
    rw [ha, if_neg (by linarith), if_neg (by linarith)]

/-- Witness for C4: the boundary score 3/10 lands in the neutral bucket. -/
theorem c4_witness :
    getHighlightClass HighlightMode.sentiment
      { id := 1, job_id := 1, text := "t", position := 0,
        sentiment_score := some (mkRat 3 10), emotion := none } = "sentiment-neutral" :=
  (c4_sentiment_bucket_pure
      { id := 1, job_id := 1, text := "t", position := 0,
        sentiment_score := some (mkRat 3 10), emotion := none }
      { id := 1, job_id := 1, text := "t", position := 0,
        sentiment_score := some (mkRat 3 10), emotion := none }
      (3/10) (by simp [jsOrRat, mkRat_three_ten])).2.2.2 (by norm_num) (by norm_num)

/-- C5: `getExtractedText` returns the job's extracted text when non-empty,
else the markdown output when non-empty, else the empty string. -/
theorem c5_getExtractedText_fallback (jobs : List JobRow) (jobId : Nat) (row : JobRow)
    (hrow : singleJobRow jobs jobId = some row) :
    (∀ s, row.extracted_text = some s → s ≠ "" →
      getExtractedText jobs jobId = Except.ok s) ∧
    (jsStrTruthy row.extracted_text = false →
      ∀ m, row.markdown_output = some m → m ≠ "" →
        getExtractedText jobs jobId = Except.ok m) ∧
    (jsStrTruthy row.extracted_text = false → jsStrTruthy row.markdown_output = false →
      getExtractedText jobs jobId = Except.ok "") := by
  unfold getExtractedText
  rw [hrow]
  have hstr : ∀ s : String, s ≠ "" → s.isEmpty = false := by
    intro s hne
    rcases hie : s.isEmpty with _ | _
    · rfl
    · exact absurd ((String.isEmpty_iff s).mp hie) hne
  refine ⟨?_, ?_, ?_⟩
  · intro s hs hne
    simp [jsOrString, hs, hstr s hne]
  · intro hext m hm hne
    rcases hext' : row.extracted_text with _ | s
    · simp [jsOrString, hext', hm, hstr m hne]
    · rw [hext'] at hext
      have hse : s.isEmpty = true := by simpa [jsStrTruthy] using hext
      simp [jsOrString, hext', hm, hse, hstr m hne]
  · intro hext hmd
    rcases hext' : row.extracted_text with _ | s <;>
      rcases hmd' : row.markdown_output with _ | m
    · simp [jsOrString, hext', hmd']
    · rw [hmd'] at hmd
      have hme : m.isEmpty = true := by simpa [jsStrTruthy] using hmd
      simp [jsOrString, hext', hmd', hme]
    · rw [hext'] at hext
      have hse : s.isEmpty = true := by simpa [jsStrTruthy] using hext
      simp [jsOrString, hext', hmd', hse]
    · rw [hext'] at hext
      rw [hmd'] at hmd
      have hse : s.isEmpty = true := by simpa [jsStrTruthy] using hext
      have hme : m.isEmpty = true := by simpa [jsStrTruthy] using hmd
      simp [jsOrString, hext', hmd', hse, hme]

/-- Witness for C5: a job whose extracted text is empty falls back to the
markdown output. -/
theorem c5_witness :
    getExtractedText [{ c2NewRow with extracted_text := some "",
                                      markdown_output := some "# md" }] 7
      = Except.ok "# md" :=
  (c5_getExtractedText_fallback
      [{ c2NewRow with extracted_text := some "", markdown_output := some "# md" }] 7
      { c2NewRow with extracted_text := some "", markdown_output := some "# md" }
      rfl).2.1 rfl "# md" rfl (by decide)

/-- C2: for a raw job-row change event with all three handlers registered,
`handleJobUpdate` fires, in order: the status-change callback iff the new
status differs from the previous one, then the progress-change callback iff
the new progress differs from the previous one, then the generic job-update
callback unconditionally. -/
theorem c2_handleJobUpdate_demux (jobId : Nat) (payload : JobUpdatePayload)
    (handlers : JobHandlers) (oldRow : JobRow) (hold : payload.oldData = some oldRow)
    (h1 : handlers.onStatusChange = true) (h2 : handlers.onProgressUpdate = true)
    (h3 : handlers.onJobUpdate = true) :
    handleJobUpdate jobId payload handlers =
      (if payload.newData.status ≠ oldRow.status then
        [JobEvent.statusChange jobId (some oldRow.status) payload.newData.status]
       else []) ++
      (if payload.newData.progress ≠ oldRow.progress then
        [JobEvent.progressUpdate jobId payload.newData.progress]
       else []) ++
      [JobEvent.jobUpdate jobId payload.eventType] := by
  unfold handleJobUpdate
  rw [hold]
  by_cases hst : payload.newData.status = oldRow.status
  · by_cases hpr : payload.newData.progress = oldRow.progress
    · simp [h1, h2, h3, hst, hpr]
    · have hpr' : ¬oldRow.progress = payload.newData.progress := fun hh => hpr hh.symm
      simp [h1, h2, h3, hst, hpr, hpr']
  · have hst' : ¬oldRow.status = payload.newData.status := fun hh => hst hh.symm
    by_cases hpr : payload.newData.progress = oldRow.progress
    · simp [h1, h2, h3, hst, hst', hpr]
    · have hpr' : ¬oldRow.progress = payload.newData.progress := fun hh => hpr hh.symm
      simp [h1, h2, h3, hst, hst', hpr, hpr']

/-- Witness for C2: a processing→completed update with a progress change
fires all three callbacks in order. -/
theorem c2_witness :
    handleJobUpdate 7 ⟨c2NewRow, some c2OldRow, "UPDATE"⟩ ⟨true, true, true⟩ =
      [JobEvent.statusChange 7 (some "processing") "completed",
       JobEvent.progressUpdate 7 100,
       JobEvent.jobUpdate 7 "UPDATE"] := by
  rw [c2_handleJobUpdate_demux 7 ⟨c2NewRow, some c2OldRow, "UPDATE"⟩ ⟨true, true, true⟩
      c2OldRow rfl rfl rfl rfl]
  decide

/-- C1 counterexample: with a completion callback registered, delivering the
sequence of two updates that both carry status `completed` (the second being a
progress-only update of the already-completed job, so the sequence contains a
single transition into `completed`) fires the completion callback once after
the first update and a second time on the repeated `completed` update —
refuting "exactly once per transition into completed". -/
theorem c1_counterexample :
    ((runUpdates demoStatusOpts initialStatusView [completedData50]).2.countP
        isCompleteEvent) = 1 ∧
    ((runUpdates demoStatusOpts initialStatusView
        [completedData50, completedData100]).2.countP isCompleteEvent) = 2 := by
  constructor <;> rfl

/-- C1 (amended): whenever the completion callback is registered, it fires
exactly once per delivered update whose status is `completed` — i.e. once per
`updateStatus` call carrying `completed`, not once per transition into
`completed`; repeated completed updates fire it again. -/
theorem c1_amended_completion_per_completed_update (opts : StatusOptions)
    (h : opts.onComplete = true) (st : StatusViewState) (ds : List StatusData) :
    ((runUpdates opts st ds).2.countP isCompleteEvent)
      = ds.countP (fun d => d.status == "completed") :=
  runUpdates_completeCount opts h st ds

/-- Witness for the amended C1 on a pending→processing→completed→completed
sequence. -/
theorem c1_amended_witness :
    ((runUpdates demoStatusOpts initialStatusView
        [{ completedData50 with status := "pending", progress := some 0 },
         { completedData50 with status := "processing" },
         completedData50, completedData100]).2.countP isCompleteEvent)
      = List.countP (fun d => d.status == "completed")
          [{ completedData50 with status := "pending", progress := some 0 },
           { completedData50 with status := "processing" },
           completedData50, completedData100] :=
  c1_amended_completion_per_completed_update demoStatusOpts rfl initialStatusView _

/-- C3: for a valid file on which `uploadAndProcess` succeeds, exactly one job
row is inserted (the resulting jobs table is the old one plus one row), and
that row has status `pending` and progress 0 (the schema default, since the
insert does not set `progress`). -/
theorem c3_uploadAndProcess_single_pending_row
    (st : MarkerServiceState) (db : MarkerDB) (name : String) (size : Nat)
    (options : List (String × Bool)) (now : Nat) (ue ie : Option RemoteError)
    (hvalid : validateFile defaultAllowedTypes defaultMaxFileSize name size = true)
    (st' : MarkerServiceState) (db' : MarkerDB) (job : JobRow)
    (hok : uploadAndProcess st db name size options now ue ie
        = (st', db', Except.ok job)) :
    db'.jobs = db.jobs ++ [job] ∧ job.status = "pending" ∧ job.progress = 0 := by
  rcases ue with _ | e
  · rcases ie with _ | e
    · unfold uploadAndProcess dbInsertJob at hok
      simp only [Prod.mk.injEq] at hok
      obtain ⟨hst, hdb, hjob⟩ := hok
      have hjob' := (Except.ok.injEq _ _).mp hjob
      subst hdb
      subst hjob'
      exact ⟨rfl, rfl, rfl⟩
    · unfold uploadAndProcess at hok
      simp at hok
  · unfold uploadAndProcess at hok
    simp at hok

/-- Witness for C3: uploading a valid 5 MB `report.pdf` into an empty state. -/
theorem c3_witness :
    c3DbAfter.jobs = c3Db.jobs ++ [c3Job] ∧ c3Job.status = "pending"
      ∧ c3Job.progress = 0 :=
  c3_uploadAndProcess_single_pending_row c3ServiceState c3Db "report.pdf" 5000000 []
    1000 none none (by decide) c3StateAfter c3DbAfter c3Job rfl

/-- C6: `getAnnotations` returns the cached list unchanged on a cache hit;
on a miss it returns the job's rows ordered by position ascending, stores
them in the cache and returns them; and a second call for the same job id
right after a successful call returns the same list with no state change. -/
theorem c6_getAnnotations_cache_contract (st : MarkerServiceState)
    (rows : List AnnotationRow) (jobId : Nat) :
    (∀ cached qe, mapLookup st.annotationCache jobId = some cached →
        getAnnotations st rows jobId qe = (st, Except.ok cached)) ∧
    (mapLookup st.annotationCache jobId = none →
        (getAnnotations st rows jobId none).2 = Except.ok (queryAnnotations rows jobId) ∧
        (getAnnotations st rows jobId none).1.annotationCache
          = mapSet st.annotationCache jobId (queryAnnotations rows jobId) ∧
        (getAnnotations st rows jobId none).1.processingQueue = st.processingQueue) ∧
    (∀ st' res rows2 qe2, getAnnotations st rows jobId none = (st', Except.ok res) →
        getAnnotations st' rows2 jobId qe2 = (st', Except.ok res)) := by
  refine ⟨?_, ?_, ?_⟩
  · intro cached qe hc
    unfold getAnnotations
    rw [hc]
  · intro hn
    unfold getAnnotations
    rw [hn]
    exact ⟨rfl, rfl, rfl⟩
  · intro st' res rows2 qe2 hfirst
    unfold getAnnotations at hfirst ⊢
    rcases hc : mapLookup st.annotationCache jobId with _ | cached
    · rw [hc] at hfirst
      simp only [Prod.mk.injEq] at hfirst
      obtain ⟨hst, hres⟩ := hfirst
      have hres' := (Except.ok.injEq _ _).mp hres
      subst hst
      simp only
      rw [mapLookup_mapSet_self, hres']
    · rw [hc] at hfirst
      simp only [Prod.mk.injEq] at hfirst
      obtain ⟨hst, hres⟩ := hfirst
      have hres' := (Except.ok.injEq _ _).mp hres
      subst hst
      rw [hc, hres']

/-- Witness for C6: a first call on an empty cache populates it with the
sorted rows of job 1, and returns them. -/
theorem c6_witness :
    (getAnnotations ⟨[], []⟩ [tieB, tieA] 1 none).2
        = Except.ok (queryAnnotations [tieB, tieA] 1) ∧
    (getAnnotations ⟨[], []⟩ [tieB, tieA] 1 none).1.annotationCache
        = mapSet ([] : List (Nat × List AnnotationRow)) 1 (queryAnnotations [tieB, tieA] 1) :=
  ⟨((c6_getAnnotations_cache_contract ⟨[], []⟩ [tieB, tieA] 1).2.1 rfl).1,
   ((c6_getAnnotations_cache_contract ⟨[], []⟩ [tieB, tieA] 1).2.1 rfl).2.1⟩

/-- C7 counterexample: the two orderings of a list holding two distinct
annotations with equal positions are permutations of each other, yet render to
different markup (the stable sort keeps ties in input order), refuting
order-independent rendering. -/
theorem c7_counterexample :
    ([tieA, tieB].Perm [tieB, tieA]) ∧
    renderAnnotations HighlightMode.sentiment [tieA, tieB]
      ≠ renderAnnotations HighlightMode.sentiment [tieB, tieA] := by
  constructor
  · exact List.Perm.swap tieB tieA []
  · decide

/-- C7 (amended): rendering is a deterministic function of the input list:
the rendered order is ascending by position, ties keep stream-arrival order
(the filter at each position is unchanged), and two permuted input lists
render to identical markup provided no two annotations share a position. -/
theorem c7_amended_render_contract (mode : HighlightMode) (l₁ l₂ : List AnnotationRow)
    (hperm : l₁.Perm l₂) :
    List.Sorted posLe (sortByPosition l₁) ∧
    (∀ k : Int, (sortByPosition l₁).filter (fun a => a.position == k)
        = l₁.filter (fun a => a.position == k)) ∧
    ((l₁.map AnnotationRow.position).Nodup →
        renderAnnotations mode l₁ = renderAnnotations mode l₂) := by
  refine ⟨sortByPosition_sorted l₁, fun k => sortByPosition_filter_pos l₁ k, ?_⟩
  intro hnd
  unfold renderAnnotations
  have hemp : l₁.isEmpty = l₂.isEmpty := by
    rcases l₁ with _ | ⟨a, t⟩
    · rw [← hperm.nil_eq]
    · rcases l₂ with _ | ⟨b, t2⟩
      · cases hperm.symm.nil_eq
      · rfl
  rw [hemp, sortByPosition_eq_of_perm hperm hnd]

/-- Witness for the amended C7: the two arrival orders of the distinct
positions 5 and 2 render identically. -/
theorem c7_amended_witness :
    renderAnnotations HighlightMode.sentiment [demoBeta, demoAlpha]
      = renderAnnotations HighlightMode.sentiment [demoAlpha, demoBeta] :=
  (c7_amended_render_contract HighlightMode.sentiment [demoBeta, demoAlpha]
      [demoAlpha, demoBeta] (List.Perm.swap demoAlpha demoBeta [])).2.2 (by decide)

/-- C8: the subscription table keeps at most one live subscription per job id:
after `unsubscribeFromJob` the id is reported unsubscribed; re-subscribing an
id that has an entry performs exactly one remote teardown of the prior handle
before opening the new channel; subscribing a fresh id performs no teardown;
and after any subscribe the id has exactly one table entry. -/
theorem c8_subscription_table (st : RealtimeState) (jobId : String) (handlersId : Nat) :
    (isSubscribedToJob (unsubscribeFromJob st jobId).1 jobId = false) ∧
    (∀ c, mapLookup st.subscriptions jobId = some c →
      (subscribeToJob st jobId handlersId).2 =
        [ChannelOp.removeChannel c, ChannelOp.openChannel ("job-" ++ jobId) st.nextChannel]) ∧
    (mapLookup st.subscriptions jobId = none →
      (subscribeToJob st jobId handlersId).2 =
        [ChannelOp.openChannel ("job-" ++ jobId) st.nextChannel]) ∧
    (mapCountKey (subscribeToJob st jobId handlersId).1.subscriptions jobId = 1) := by
  refine ⟨?_, ?_, ?_, ?_⟩
  · unfold unsubscribeFromJob isSubscribedToJob mapHas
    rcases hc : mapLookup st.subscriptions jobId with _ | c
    · simp [hc]
    · simp [mapLookup_mapDelete_self]
  · intro c hc
    unfold subscribeToJob unsubscribeFromJob mapHas
    rw [hc]
    simp [hc]
  · intro hc
    unfold subscribeToJob mapHas
    rw [hc]
    simp
  · unfold subscribeToJob
    exact mapCountKey_mapSet_self _ _ _

/-- Witness for C8: re-subscribing job id 7, whose table holds channel 3,
tears that channel down exactly once and opens `job-7`; afterwards the table
has exactly one entry for the id. -/
theorem c8_witness :
    isSubscribedToJob (unsubscribeFromJob ⟨[("7", 3)], [("7", 1)], 5, true⟩ "7").1 "7"
        = false ∧
    (subscribeToJob ⟨[("7", 3)], [("7", 1)], 5, true⟩ "7" 9).2 =
      [ChannelOp.removeChannel 3, ChannelOp.openChannel "job-7" 5] ∧
    mapCountKey (subscribeToJob ⟨[("7", 3)], [("7", 1)], 5, true⟩ "7" 9).1.subscriptions "7"
        = 1 :=
  ⟨(c8_subscription_table ⟨[("7", 3)], [("7", 1)], 5, true⟩ "7" 9).1,
   (c8_subscription_table ⟨[("7", 3)], [("7", 1)], 5, true⟩ "7" 9).2.1 3 rfl,
   (c8_subscription_table ⟨[("7", 3)], [("7", 1)], 5, true⟩ "7" 9).2.2.2⟩

/-- C9 (code bug, evaluated at the failing input): with the in-memory list
`[demoBeta, demoAlpha]` (arrival order, not sorted by position), the fragment
rendered at DOM index 0 is `demoAlpha` ("alpha", position 2); clicking it
calls `selectAnnotation(0)`, which marks DOM index 0 selected but populates
the detail panel from `this.annotations[0] = demoBeta` — a different
annotation ("beta", position 5) — because the handler indexes the unsorted
list with the sorted index. -/
theorem c9_select_populates_mismatched_panel :
    renderedAnnAt demoViewer 0 = some demoAlpha ∧
    (selectAnnotationAt demoViewer 0).selectedDomIndex = 0 ∧
    (selectAnnotationAt demoViewer 0).panel = some (showAnnotationDetails demoBeta) ∧
    showAnnotationDetails demoBeta ≠ showAnnotationDetails demoAlpha := by
  refine ⟨by decide, rfl, rfl, by decide⟩

/-- C10: `cancelJob` is atomic with respect to the local queue: a failed
remote update rethrows and leaves local state and database untouched; a
successful one removes exactly the cancelled job's queue entry and returns
`true`. -/
theorem c10_cancelJob_atomic (st : MarkerServiceState) (db : MarkerDB) (jobId : Nat) :
    (∀ e, cancelJob st db jobId (some e) = (st, db, Except.error e)) ∧
    ((cancelJob st db jobId none).2.2 = Except.ok true) ∧
    (mapLookup (cancelJob st db jobId none).1.processingQueue jobId = none) ∧
    (∀ k, k ≠ jobId → mapLookup (cancelJob st db jobId none).1.processingQueue k
        = mapLookup st.processingQueue k) := by
  refine ⟨fun e => rfl, rfl, ?_, ?_⟩
  · exact mapLookup_mapDelete_self _ _
  · intro k hk
    exact mapLookup_mapDelete_ne _ _ _ hk

/-- Witness for C10: cancelling job 3 with a failing remote update leaves the
queue entry in place; with a succeeding one it removes it and returns true. -/
theorem c10_witness :
    cancelJob ⟨[(3, ⟨"pending", 0, 0⟩)], []⟩ ⟨[], [], 0⟩ 3 (some (RemoteError.db "down"))
        = (⟨[(3, ⟨"pending", 0, 0⟩)], []⟩, ⟨[], [], 0⟩,
           Except.error (RemoteError.db "down")) ∧
    mapLookup (cancelJob ⟨[(3, ⟨"pending", 0, 0⟩)], []⟩ ⟨[], [], 0⟩ 3
        none).1.processingQueue 3 = none ∧
    mapLookup (cancelJob ⟨[(3, ⟨"pending", 0, 0⟩)], []⟩ ⟨[], [], 0⟩ 3
        none).1.processingQueue 4
      = mapLookup ([(3, (⟨"pending", 0, 0⟩ : QueueEntry))] : List (Nat × QueueEntry)) 4 :=
  ⟨(c10_cancelJob_atomic ⟨[(3, ⟨"pending", 0, 0⟩)], []⟩ ⟨[], [], 0⟩ 3).1
      (RemoteError.db "down"),
   (c10_cancelJob_atomic ⟨[(3, ⟨"pending", 0, 0⟩)], []⟩ ⟨[], [], 0⟩ 3).2.2.1,
   (c10_cancelJob_atomic ⟨[(3, ⟨"pending", 0, 0⟩)], []⟩ ⟨[], [], 0⟩ 3).2.2.2 4
      (by decide)⟩
